import Mathlib

/-!
Shallow embedding of the moderation / reputation / content-view core of the
Django-Apartment-Management backend, together with theorems settling the
frozen claims about it.

Source files embedded:
  * `server/apps/profiles/models.py`  — `Profile.update_reputation`, `Profile.save`
  * `server/apps/profiles/tasks.py`   — `update_all_reputations`
  * `server/apps/reports/models.py`   — `Report` (FK `on_delete` declarations)
  * `server/apps/reports/signals.py`  — `update_user_report_count_and_reputation`
  * `server/apps/common/models.py`    — `ContentView.record_view`
  * `server/apps/issues/serializers.py` — `IssueSerializer.get_view_count`

Database rows are modelled as Lean structures, the database as lists of rows,
and each Python operation as a pure function on that state.  Machine-level
side effects (outbound e-mail, exception propagation, Django transaction
rollback) are made explicit in the result types.
-/

/-- Derived reputation, from `Profile.update_reputation`
(`profiles/models.py`): Python computes `max(0, 100 - report_count * 20)`
over unbounded signed integers and stores it in a non-negative field. -/
def computeReputation (report_count : Nat) : Nat :=
  (max 0 (100 - (report_count : Int) * 20)).toNat

/-- Row of the `Profile` model: the two moderation-relevant stored columns
(`profiles/models.py`).  All other columns are irrelevant to the claims. -/
structure Profile where
  report_count : Nat
  reputation : Nat
  deriving Repr, DecidableEq

/-- Method `Profile.update_reputation`: sets `reputation` from
`report_count`, touching nothing else. -/
def Profile.update_reputation (p : Profile) : Profile :=
  { p with reputation := computeReputation p.report_count }

/-- Method `Profile.save`: the override first calls `update_reputation`,
then persists via `super().save()` (modelled as returning the row that is
now stored). -/
def Profile.save (p : Profile) : Profile :=
  p.update_reputation

/-- Property `Profile.is_banned`: true iff `report_count >= 5`. -/
def Profile.is_banned (p : Profile) : Bool :=
  5 ≤ p.report_count

/-- Celery task `update_all_reputations` (`profiles/tasks.py`) operates on a
state holding every profile (each with its owning user's `is_active` flag)
plus the log of notifications dispatched so far.  A target is one user's
moderation-relevant state: their profile row and their account's
`is_active` flag. -/
structure TargetState where
  profile : Profile
  isActive : Bool
  deriving Repr, DecidableEq

/-- Kind of notification e-mail (`reports/emails.py` defines exactly two
senders: `send_warning_email` and `send_deactivation_email`). -/
inductive EmailKind where
  | warning
  | deactivation
  deriving Repr, DecidableEq

/-- One dispatched notification: its kind plus the report title and
description rendered into it (both senders receive `title` and
`description` and put them in the message context). -/
structure EmailMsg where
  kind : EmailKind
  title : String
  description : String
  deriving Repr, DecidableEq

/-- State acted on by the reputation sweep: all profiles with their users'
active flags, and the list of e-mails dispatched so far. -/
structure SweepState where
  targets : List TargetState
  emails : List EmailMsg
  deriving Repr, DecidableEq

/-- Celery task `update_all_reputations` (`profiles/tasks.py`): for every
profile it calls `profile.update_reputation()` then `profile.save()`.
It touches no user row and sends no e-mail. -/
def update_all_reputations (s : SweepState) : SweepState :=
  { s with
    targets := s.targets.map (fun t =>
      { t with profile := (t.profile.update_reputation).save }) }

/-- Row of the `Report` model (`reports/models.py`): title, description and
the two nullable user foreign keys (users modelled by numeric primary
keys). -/
structure Report where
  title : String
  description : String
  reported_by : Option Nat
  reported_user : Option Nat
  deriving Repr, DecidableEq

/-- Django `on_delete` policies relevant to this model. -/
inductive OnDelete where
  | CASCADE
  | SET_NULL
  deriving Repr, DecidableEq

/-- Declared deletion policy of `Report.reported_by`
(`reports/models.py`: `on_delete=models.CASCADE`). -/
def Report.reported_by_on_delete : OnDelete :=
  OnDelete.CASCADE

/-- Declared deletion policy of `Report.reported_user`
(`reports/models.py`: `on_delete=models.CASCADE`). -/
def Report.reported_user_on_delete : OnDelete :=
  OnDelete.CASCADE

/-- Django semantics of one FK under user deletion: if the row references
the deleted user through this FK, `CASCADE` deletes the row (`none`) and
`SET_NULL` nulls the reference; otherwise the reference is kept. -/
def applyOnDelete (policy : OnDelete) (ref : Option Nat) (uid : Nat) :
    Option (Option Nat) :=
  if ref = some uid then
    match policy with
    | OnDelete.CASCADE => none
    | OnDelete.SET_NULL => some none
  else
    some ref

/-- Effect on one `Report` row of deleting user `uid`, per the declared
`on_delete` policies of its two FKs: `none` means the row is deleted. -/
def Report.deleteUser (r : Report) (uid : Nat) : Option Report :=
  match applyOnDelete Report.reported_by_on_delete r.reported_by uid with
  | none => none
  | some rb =>
    match applyOnDelete Report.reported_user_on_delete r.reported_user uid with
    | none => none
    | some ru => some { r with reported_by := rb, reported_user := ru }

/-- Result of the `post_save` signal handler
`update_user_report_count_and_reputation` (`reports/signals.py`):
the target user's persisted state after the handler (when a target user
exists), the notifications successfully dispatched, and whether an
exception propagated to the caller. -/
structure IngestOutcome where
  target : Option TargetState
  emails : List EmailMsg
  raised : Bool
  deriving Repr, DecidableEq

/-- Signal handler `update_user_report_count_and_reputation`
(`reports/signals.py`), run with `created`, the dereferenced
`instance.reported_user` (with its profile), and the report's title and
description.  `sendOk k` tells whether dispatching an e-mail of kind `k`
succeeds; both e-mail sends and all row saves happen inside one
`transaction.atomic()` block with no exception handler, so a failing send
raises out of the block, rolling back every row written inside it, and the
exception propagates to the caller.  A `None` target makes the very first
statement of the block (`instance.reported_user.profile`) raise
`AttributeError` before any write. -/
def update_user_report_count_and_reputation
    (created : Bool) (target : Option TargetState)
    (title description : String) (sendOk : EmailKind → Bool) : IngestOutcome :=
  if created then
    match target with
    | none => ⟨none, [], true⟩
    | some t =>
      let p1 := Profile.save
        { t.profile with report_count := t.profile.report_count + 1 }
      if p1.report_count = 1 then
        if sendOk EmailKind.warning then
          ⟨some ⟨p1, t.isActive⟩, [⟨EmailKind.warning, title, description⟩], false⟩
        else
          ⟨some t, [], true⟩
      else if 5 ≤ p1.report_count then
        if sendOk EmailKind.deactivation then
          ⟨some ⟨p1, false⟩, [⟨EmailKind.deactivation, title, description⟩], false⟩
        else
          ⟨some t, [], true⟩
      else
        ⟨some ⟨p1, t.isActive⟩, [], false⟩
  else
    ⟨target, [], false⟩

/-- Row of the `ContentView` model (`common/models.py`): polymorphic
reference (`content_type` as a numeric type tag, `object_id`), nullable
viewer user, nullable viewer IP, and the `last_viewed` timestamp. -/
structure ContentView where
  content_type : Nat
  object_id : Nat
  user : Option Nat
  viewer_ip : Option String
  last_viewed : Nat
  deriving Repr, DecidableEq

/-- Lookup key used by `ContentView.record_view`: the source's
`get_or_create` filters on `content_type`, `object_id` and `user` only
(`viewer_ip` appears solely in `defaults`). -/
def ContentView.matchesLookup (v : ContentView) (ct oid : Nat)
    (user : Option Nat) : Bool :=
  v.content_type = ct && v.object_id = oid && v.user = user

/-- Class method `ContentView.record_view` (`common/models.py`):
`get_or_create` on `(content_type, object_id, user)` with
`defaults={user, viewer_ip}`.  If a row matches, its `last_viewed`
timestamp is refreshed (the `auto_now` column is set to the current time on
save); otherwise a new row is inserted with `last_viewed` set to now. -/
def ContentView.record_view (db : List ContentView) (ct oid : Nat)
    (user : Option Nat) (viewer_ip : Option String) (now : Nat) :
    List ContentView :=
  match db with
  | [] => [⟨ct, oid, user, viewer_ip, now⟩]
  | v :: rest =>
    if v.matchesLookup ct oid user then
      { v with last_viewed := now } :: rest
    else
      v :: ContentView.record_view rest ct oid user viewer_ip now

/-- Method `IssueSerializer.get_view_count` (`issues/serializers.py`):
counts the `ContentView` rows whose polymorphic reference matches the
entity, with no further deduplication. -/
def count_views (db : List ContentView) (ct oid : Nat) : Nat :=
  (db.filter (fun v => v.content_type = ct && v.object_id = oid)).length

/-- C3: for every Profile and every save, regardless of the reputation held
before the save, the stored reputation afterwards equals
`max(0, 100 - report_count * 20)`, and `report_count` is untouched:
reputation is never persisted with an independently set value. -/
theorem c3_reputation_invariant_after_save (p : Profile) :
    (((Profile.save p).reputation : Int)
        = max 0 (100 - (p.report_count : Int) * 20))
    ∧ (Profile.save p).report_count = p.report_count := by
  constructor
  · show ((computeReputation p.report_count : Nat) : Int) = _
    unfold computeReputation
    exact Int.toNat_of_nonneg (le_max_left 0 _)
  · rfl

/-- C5: a report filed against a target with `report_count = 0` makes the
count 1 and the reputation 80, dispatches exactly one warning notification
carrying the report title and description, and leaves the account
active. -/
theorem c5_first_report_warns (rep : Nat) (a : Bool) (title desc : String) :
    update_user_report_count_and_reputation true
        (some ⟨⟨0, rep⟩, a⟩) title desc (fun _ => true)
      = ⟨some ⟨⟨1, 80⟩, a⟩, [⟨EmailKind.warning, title, desc⟩], false⟩ := by
  rfl

/-- C4: a fifth report (target had `report_count = 4`) makes the count 5,
the reputation 0, clears the account's active flag, and dispatches exactly
one deactivation notification and no warning notification. -/
theorem c4_fifth_report_deactivates (rep : Nat) (a : Bool)
    (title desc : String) :
    update_user_report_count_and_reputation true
        (some ⟨⟨4, rep⟩, a⟩) title desc (fun _ => true)
      = ⟨some ⟨⟨5, 0⟩, false⟩, [⟨EmailKind.deactivation, title, desc⟩], false⟩ := by
  rfl

/-- C7: the periodic sweep corrects a profile with `report_count = 3` and a
corrupted stored reputation of 100 to reputation 40, and for every state it
dispatches no notification, changes no account active flag, and changes no
report count. -/
theorem c7_sweep_recomputes_only (s : SweepState) :
    (update_all_reputations s).emails = s.emails
    ∧ (update_all_reputations s).targets.map TargetState.isActive
        = s.targets.map TargetState.isActive
    ∧ (update_all_reputations s).targets.map (fun t => t.profile.report_count)
        = s.targets.map (fun t => t.profile.report_count)
    ∧ update_all_reputations ⟨[⟨⟨3, 100⟩, true⟩], []⟩
        = ⟨[⟨⟨3, 40⟩, true⟩], []⟩ := by
  refine ⟨rfl, ?_, ?_, by decide⟩
  · show (s.targets.map _).map _ = _
    rw [List.map_map]
    rfl
  · show (s.targets.map _).map _ = _
    rw [List.map_map]
    rfl

/-- C8: recording a view twice with the identical
`(content_type, object_id, user, viewer_ip)` tuple leaves exactly one
`ContentView` row, and `count_views` for the entity returns 1, not 2. -/
theorem c8_record_view_idempotent (ct oid : Nat) (user : Option Nat)
    (ip : Option String) (t1 t2 : Nat) :
    (ContentView.record_view
        (ContentView.record_view [] ct oid user ip t1) ct oid user ip t2).length = 1
    ∧ count_views
        (ContentView.record_view
          (ContentView.record_view [] ct oid user ip t1) ct oid user ip t2)
        ct oid = 1 := by
  simp [ContentView.record_view, ContentView.matchesLookup, count_views]

/-- C9: a report filed against a target whose profile already has
`report_count >= 5` reruns the deactivation branch: the count is
incremented, the account's active flag is cleared again, and another
deactivation notification is dispatched. -/
theorem c9_reports_past_fifth_redeactivate (p : Profile) (a : Bool)
    (title desc : String) (h : 5 ≤ p.report_count) :
    update_user_report_count_and_reputation true
        (some ⟨p, a⟩) title desc (fun _ => true)
      = ⟨some ⟨⟨p.report_count + 1, 0⟩, false⟩,
          [⟨EmailKind.deactivation, title, desc⟩], false⟩ := by
  have h1 : p.report_count + 1 ≠ 1 := by omega
  have h5 : 5 ≤ p.report_count + 1 := by omega
  have hrep : computeReputation (p.report_count + 1) = 0 := by
    unfold computeReputation
    have hle : (100 : Int) - (↑(p.report_count + 1)) * 20 ≤ 0 := by
      push_cast
      omega
    rw [max_eq_left hle]
    rfl
  simp [update_user_report_count_and_reputation, Profile.save,
    Profile.update_reputation, h1, h5, hrep]

/-- C9 witness: instantiation at a target already holding five reports. -/
theorem c9_reports_past_fifth_redeactivate_witness :
    5 ≤ (Profile.mk 5 0).report_count
    ∧ update_user_report_count_and_reputation true
        (some ⟨⟨5, 0⟩, true⟩) "t" "d" (fun _ => true)
      = ⟨some ⟨⟨6, 0⟩, false⟩, [⟨EmailKind.deactivation, "t", "d"⟩], false⟩ :=
  ⟨by decide, c9_reports_past_fifth_redeactivate ⟨5, 0⟩ true "t" "d" (by decide)⟩

/-- C10: the `Report` model permits a null `reported_user`, yet for a newly
created report with no target the handler raises (the dereference of the
missing user fails) and performs no report-count increment: no target state
is produced, no e-mail is dispatched, and the exception propagates. -/
theorem c10_null_reported_user_raises (title desc : String)
    (sendOk : EmailKind → Bool) :
    (Report.mk "t" "d" (some 1) none).reported_user = none
    ∧ update_user_report_count_and_reputation true none title desc sendOk
        = ⟨none, [], true⟩ :=
  ⟨rfl, rfl⟩

/-- C1 counterexample: with a target at `report_count = 0` and a failing
notification transport, the handler propagates the exception
(`raised = true`) and the report-count increment is rolled back (the
target's state is unchanged) — refuting the claim that the failure is
swallowed and the increment commits. -/
theorem c1_counterexample :
    update_user_report_count_and_reputation true
        (some ⟨⟨0, 100⟩, true⟩) "t" "d" (fun _ => false)
      = ⟨some ⟨⟨0, 100⟩, true⟩, [], true⟩ := by
  rfl

/-- C1 amended: for every newly created report whose ingestion attempts a
notification (first report, or fifth and beyond), a failing dispatch
propagates to the caller and the atomic block rolls back the report-count
increment and any deactivation: nothing of the transition commits. -/
theorem c1_notification_failure_raises_and_rolls_back (t : TargetState)
    (title desc : String)
    (h : t.profile.report_count = 0 ∨ 4 ≤ t.profile.report_count) :
    update_user_report_count_and_reputation true
        (some t) title desc (fun _ => false)
      = ⟨some t, [], true⟩ := by
  rcases h with h | h
  · simp [update_user_report_count_and_reputation, Profile.save,
      Profile.update_reputation, h]
  · have h1 : t.profile.report_count + 1 ≠ 1 := by omega
    have h5 : 5 ≤ t.profile.report_count + 1 := by omega
    simp [update_user_report_count_and_reputation, Profile.save,
      Profile.update_reputation, h1, h5]

/-- C1 witness: instantiation at a target holding four prior reports. -/
theorem c1_notification_failure_witness :
    ((Profile.mk 4 20).report_count = 0 ∨ 4 ≤ (Profile.mk 4 20).report_count)
    ∧ update_user_report_count_and_reputation true
        (some ⟨⟨4, 20⟩, true⟩) "t" "d" (fun _ => false)
      = ⟨some ⟨⟨4, 20⟩, true⟩, [], true⟩ :=
  ⟨by decide,
    c1_notification_failure_raises_and_rolls_back ⟨⟨4, 20⟩, true⟩ "t" "d"
      (by decide)⟩

/-- C2 counterexample: two anonymous views of the same entity from distinct
IP addresses (user absent in both) are merged into one row, so
`count_views` returns 1 — refuting the claim that the lookup uses the full
four-tuple and would yield 2. -/
theorem c2_counterexample :
    count_views
      (ContentView.record_view
        (ContentView.record_view [] 0 1 none (some "1.1.1.1") 0)
        0 1 none (some "2.2.2.2") 1)
      0 1 ≠ 2 := by
  decide

/-- C2 amended: `record_view` looks up an existing row by
`(entity_type, entity_id, viewer_identity)` only — `viewer_ip` is used
solely as an insert default.  Two distinct non-null viewer identities
against the same entity therefore produce two rows (`count_views` = 2),
while two anonymous viewers with distinct IP addresses are merged into a
single row (`count_views` = 1). -/
theorem c2_lookup_ignores_viewer_ip (ct oid u1 u2 : Nat)
    (ip1 ip2 : Option String) (t1 t2 : Nat) (h : u1 ≠ u2) :
    count_views
        (ContentView.record_view
          (ContentView.record_view [] ct oid (some u1) ip1 t1)
          ct oid (some u2) ip2 t2)
        ct oid = 2
    ∧ count_views
        (ContentView.record_view
          (ContentView.record_view [] ct oid none ip1 t1)
          ct oid none ip2 t2)
        ct oid = 1 := by
  constructor
  · simp [ContentView.record_view, ContentView.matchesLookup, count_views, h]
  · simp [ContentView.record_view, ContentView.matchesLookup, count_views]

/-- C2 witness: instantiation at users 1 and 2 with distinct IPs. -/
theorem c2_lookup_ignores_viewer_ip_witness :
    (1 : Nat) ≠ 2
    ∧ (count_views
        (ContentView.record_view
          (ContentView.record_view [] 0 1 (some 1) (some "1.1.1.1") 0)
          0 1 (some 2) (some "2.2.2.2") 1)
        0 1 = 2
      ∧ count_views
          (ContentView.record_view
            (ContentView.record_view [] 0 1 none (some "1.1.1.1") 0)
            0 1 none (some "2.2.2.2") 1)
          0 1 = 1) :=
  ⟨by decide,
    c2_lookup_ignores_viewer_ip 0 1 1 2 (some "1.1.1.1") (some "2.2.2.2") 0 1
      (by decide)⟩

/-- C6 counterexample: a report whose filer is user 7 is cascade-deleted
when user 7 is deleted — the row does not survive with a nulled reference,
refuting the claim. -/
theorem c6_counterexample :
    Report.deleteUser ⟨"t", "d", some 7, some 8⟩ 7 = none := by
  rfl

/-- C6 amended: both `reported_by` and `reported_user` declare
`on_delete=CASCADE` (despite being nullable), so deleting a user referenced
by a report through either FK deletes the report row itself. -/
theorem c6_delete_referenced_user_cascades (r : Report) (uid : Nat)
    (h : r.reported_by = some uid ∨ r.reported_user = some uid) :
    Report.deleteUser r uid = none := by
  unfold Report.deleteUser applyOnDelete
  unfold Report.reported_by_on_delete Report.reported_user_on_delete
  rcases h with h | h
  · simp [h]
  · simp [h]
    split <;> simp

/-- C6 witness: instantiation at a report targeting user 8. -/
theorem c6_delete_referenced_user_cascades_witness :
    ((Report.mk "t" "d" (some 7) (some 8)).reported_by = some 8
      ∨ (Report.mk "t" "d" (some 7) (some 8)).reported_user = some 8)
    ∧ Report.deleteUser ⟨"t", "d", some 7, some 8⟩ 8 = none :=
  ⟨by simp, c6_delete_referenced_user_cascades ⟨"t", "d", some 7, some 8⟩ 8
    (by simp)⟩
